import Mathlib

/-!
Shallow embedding of the manager service layer of the CallAudit backend
(src/features/manager/services.py together with the data model in
src/models.py).  External collaborators that are not part of the excerpt
(the data repository, the bcrypt credential verifier and the JWT token
issuer) are passed in as explicit function parameters, exactly as the
service object holds `self.repo` and `self.jwt_util` and builds a
`CryptContext` per call.  Each service method is translated into a pure
function returning the outcome (`Except HTTPException result`) together
with the list of repository calls it performed (or the list of cookies it
set on the response, for login), so that claims such as "fails before
invoking any repository method" and "no cookie is set on failure" become
statements about that second component.
-/

namespace CallAudit

/-! Data model (src/models.py): only the columns the service layer reads. -/

/-- Manager row: the service reads id, name, email and the password hash. -/
structure Manager where
  id : String
  name : String
  email : String
  phone : String
  password : String
  deriving DecidableEq, Repr

/-- A flagged audit report row as returned by the repository. -/
structure FlaggedAudit where
  id : String
  deriving DecidableEq, Repr

/-- One entry of the trailing-7-day audited-calls series. -/
structure DayDatum where
  day : String
  audited_calls : Nat
  deriving DecidableEq, Repr

/-- An auditor row as returned by the repository roster query. -/
structure Auditor where
  id : String
  name : String
  deriving DecidableEq, Repr

/-- A counsellor row as returned by the repository roster query. -/
structure Counsellor where
  id : String
  name : String
  deriving DecidableEq, Repr

/-- The aggregate dictionary returned by
`get_auditor_and_audited_call_counts` (keys read by the service). -/
structure AuditorCountsData where
  number_of_auditors : Nat
  total_audited_calls : Nat
  deriving DecidableEq, Repr

/-- The aggregate dictionary returned by `get_counsellor_data`.  The
repository is an external collaborator (spec section 6: counsellor count
and calls-made total); the service only ever reads the
`total_counsellors` key. -/
structure CounsellorData where
  total_counsellors : Nat
  total_calls_made : Nat
  deriving DecidableEq, Repr

/-- The dictionary handed to `repo.create_auditor` by
`create_new_auditor` (built in `add_new_user`, password added later). -/
structure AuditorRecord where
  email : String
  name : String
  phone : String
  manager_id : String
  password : String
  deriving DecidableEq, Repr

/-- The dictionary handed to `repo.create_counsellor` by
`create_new_counsellor` (built in `add_new_user`). -/
structure CounsellorRecord where
  email : String
  name : String
  phone : String
  manager_id : String
  auditor_id : String
  deriving DecidableEq, Repr

/-- The `ManagerRepository` collaborator: a read returning `None` in
Python is `none` here, a row or aggregate is `some`; the create methods
return a truthiness flag. -/
structure ManagerRepository where
  get_manager : String → Option Manager
  get_all_leads : String → Option Nat
  get_all_audit : String → Option Nat
  get_all_flagged_call : String → Option Nat
  get_all_latest_flagged_audit : String → Option (List FlaggedAudit)
  get_last_7_days_audited_calls : String → Option (List DayDatum)
  get_auditor_and_audited_call_counts : String → Option AuditorCountsData
  get_auditors : String → Option (List Auditor)
  get_counsellor_data : String → Option CounsellorData
  get_counsellors : String → Option (List Counsellor)
  create_auditor : AuditorRecord → Bool
  create_counsellor : CounsellorRecord → Bool

/-- One repository invocation, recorded in the order the service makes
them; used to state "fails before invoking any repository method". -/
inductive RepoCall where
  | get_manager (email : String)
  | get_all_leads (manager_id : String)
  | get_all_audit (manager_id : String)
  | get_all_flagged_call (manager_id : String)
  | get_all_latest_flagged_audit (manager_id : String)
  | get_last_7_days_audited_calls (manager_id : String)
  | get_auditor_and_audited_call_counts (manager_id : String)
  | get_auditors (manager_id : String)
  | get_counsellor_data (manager_id : String)
  | get_counsellors (manager_id : String)
  | create_auditor (data : AuditorRecord)
  | create_counsellor (data : CounsellorRecord)
  deriving DecidableEq, Repr

/-- `fastapi.HTTPException` carrying a status code and a detail string. -/
structure HTTPException where
  status_code : Nat
  detail : String
  deriving DecidableEq, Repr

def HTTP_400_BAD_REQUEST : Nat := 400
def HTTP_401_UNAUTHORIZED : Nat := 401
def HTTP_403_FORBIDDEN : Nat := 403
def HTTP_404_NOT_FOUND : Nat := 404
def HTTP_500_INTERNAL_SERVER_ERROR : Nat := 500

/-- The sanitized user view returned on login (id, name, email, role;
there is no password field on this schema). -/
structure User where
  id : String
  name : String
  email : String
  role : String
  deriving DecidableEq, Repr

/-- Login response schema. -/
structure LoginSchema where
  success : Bool
  message : String
  user : User
  deriving DecidableEq, Repr

/-- Manager dashboard analytics response schema. -/
structure ManagerAnalyticsResponse where
  success : Bool
  message : String
  total_assigned_leads : Nat
  total_audited_calls : Nat
  flagged_calls : Nat
  latest_flagged_audit : List FlaggedAudit
  last_7_days_data : List DayDatum
  deriving DecidableEq, Repr

/-- Auditor analytics response schema. -/
structure AuditorAnalyticsResponse where
  success : Bool
  message : String
  number_of_auditors : Nat
  total_audited_calls : Nat
  auditors : List Auditor
  deriving DecidableEq, Repr

/-- Counsellor analysis response schema. -/
structure CounsellorAnalysisResponse where
  success : Bool
  message : String
  total_counsellors : Nat
  total_calls_made : Nat
  counsellors : List Counsellor
  deriving DecidableEq, Repr

/-- Flagged audits response schema. -/
structure FlaggedAuditsResponse where
  success : Bool
  message : String
  flagged_audits : List FlaggedAudit
  deriving DecidableEq, Repr

/-- Response schema for `add_new_user`, carrying the password field. -/
structure NewUserCreatedSchema where
  success : Bool
  message : String
  password : String
  deriving DecidableEq, Repr

/-- One `response.set_cookie(...)` invocation with the arguments the
service passes. -/
structure Cookie where
  key : String
  value : String
  httponly : Bool
  secure : Bool
  samesite : String
  max_age : Nat
  deriving DecidableEq, Repr

/-- The `core.jwt_util` collaborator.  `create_jwt_token` receives the
id, name, email and role claims; `create_refresh_token` receives the id.
`none` models a `None` return and `some ""` an empty-string return; both
are falsy in the `if not token` checks of the source. -/
structure JwtUtil where
  create_jwt_token : String → String → String → String → Option String
  create_refresh_token : String → Option String

/-- The value a Python caller passes where a `Manager` is annotated.
`other oid` is any object that is not a `Manager` instance; `oid` is its
`id` attribute when it has one (`none` when reading `.id` would raise
`AttributeError`, which the blanket `except Exception` of each method
converts into a 500 error). -/
inductive CurrentUser where
  | manager (m : Manager)
  | other (oid : Option String)
  deriving DecidableEq, Repr

/-- Reading the `.id` attribute of the argument. -/
def CurrentUser.id_attr : CurrentUser → Option String
  | .manager m => some m.id
  | .other oid => oid

/-! Service methods (ManagerService in
src/features/manager/services.py). -/

/-- `ManagerService.login_manager` (lines 45-141).  Look up the manager
by email (404 if absent); verify the password with the bcrypt context
(401 on mismatch); create the JWT token and the refresh token (500 when
either is falsy); then set the two cookies and return the login schema.
The second component is the list of cookies set on the response. -/
def login_manager (repo : ManagerRepository) (jwt_util : JwtUtil)
    (verify : String → String → Bool) (email password : String) :
    Except HTTPException LoginSchema × List Cookie :=
  match repo.get_manager email with
  | none =>
      (.error ⟨HTTP_404_NOT_FOUND, "No manager found with given email"⟩, [])
  | some manager =>
      if verify password manager.password = false then
        (.error ⟨HTTP_401_UNAUTHORIZED, "Password not matched"⟩, [])
      else
        match jwt_util.create_jwt_token manager.id manager.name manager.email "manager" with
        | none =>
            (.error ⟨HTTP_500_INTERNAL_SERVER_ERROR, "Failed to generate JWT token"⟩, [])
        | some token =>
            if token = "" then
              (.error ⟨HTTP_500_INTERNAL_SERVER_ERROR, "Failed to generate JWT token"⟩, [])
            else
              match jwt_util.create_refresh_token manager.id with
              | none =>
                  (.error ⟨HTTP_500_INTERNAL_SERVER_ERROR, "Failed to generate refresh token"⟩, [])
              | some refresh_token =>
                  if refresh_token = "" then
                    (.error ⟨HTTP_500_INTERNAL_SERVER_ERROR, "Failed to generate refresh token"⟩, [])
                  else
                    (.ok ⟨true, "Manager logged in succesfully.",
                        ⟨manager.id, manager.name, manager.email, "manager"⟩⟩,
                     [⟨"token", token, true, false, "lax", 24 * 60 * 60⟩,
                      ⟨"refresh_token", refresh_token, true, true, "lax", 7 * 24 * 60 * 60⟩])

/-- `ManagerService.get_manager_analytics` (lines 143-200).  Rejects a
non-Manager argument with 403 before any repository call; otherwise runs
the five sub-fetches and fails with 500 when any of them is `None`. -/
def get_manager_analytics (repo : ManagerRepository) (manager : CurrentUser) :
    Except HTTPException ManagerAnalyticsResponse × List RepoCall :=
  match manager with
  | .other _ =>
      (.error ⟨HTTP_403_FORBIDDEN, "Current user is not authorized as manager"⟩, [])
  | .manager m =>
      (match repo.get_all_leads m.id, repo.get_all_audit m.id,
             repo.get_all_flagged_call m.id,
             repo.get_all_latest_flagged_audit m.id,
             repo.get_last_7_days_audited_calls m.id with
       | some leads, some audits, some flagged_calls,
         some latest_flagged_audit, some last_7_days_data =>
           .ok ⟨true, "Succesfully analyzed audits for manager", leads, audits,
                flagged_calls, latest_flagged_audit, last_7_days_data⟩
       | _, _, _, _, _ =>
           .error ⟨HTTP_500_INTERNAL_SERVER_ERROR,
             "Internal server error while fetching data from database"⟩,
       [.get_all_leads m.id, .get_all_audit m.id, .get_all_flagged_call m.id,
        .get_all_latest_flagged_audit m.id, .get_last_7_days_audited_calls m.id])

/-- `ManagerService.get_auditors_analytics` (lines 202-242).  There is no
`isinstance` check: the method immediately evaluates `manager.id` (an
`AttributeError` on a non-Manager without an id is swallowed by the
blanket handler into a 500) and calls the two repository reads; it fails
with 500 when the aggregate is `None` or the roster is `None` or empty
(`if not auditors_data or not auditors`). -/
def get_auditors_analytics (repo : ManagerRepository) (manager : CurrentUser) :
    Except HTTPException AuditorAnalyticsResponse × List RepoCall :=
  match manager.id_attr with
  | none =>
      (.error ⟨HTTP_500_INTERNAL_SERVER_ERROR,
        "Internal server error while getting audit analysis."⟩, [])
  | some mid =>
      (match repo.get_auditor_and_audited_call_counts mid, repo.get_auditors mid with
       | some auditors_data, some (a :: rest) =>
           .ok ⟨true, "Succesfully got the auditors data under manager",
                auditors_data.number_of_auditors, auditors_data.total_audited_calls,
                a :: rest⟩
       | _, _ =>
           .error ⟨HTTP_500_INTERNAL_SERVER_ERROR,
             "Internal server error occurred while  getting auditors data"⟩,
       [.get_auditor_and_audited_call_counts mid, .get_auditors mid])

/-- `ManagerService.get_counsellor_analysis` (lines 244-282).  No
`isinstance` check either.  On success both `total_counsellors` and
`total_calls_made` of the response are populated from the
`total_counsellors` key of the repository dictionary (lines 269-270). -/
def get_counsellor_analysis (repo : ManagerRepository) (manager : CurrentUser) :
    Except HTTPException CounsellorAnalysisResponse × List RepoCall :=
  match manager.id_attr with
  | none =>
      (.error ⟨HTTP_500_INTERNAL_SERVER_ERROR,
        "Internal server error while getting counsellor analysis."⟩, [])
  | some mid =>
      (match repo.get_counsellors mid, repo.get_counsellor_data mid with
       | some (c :: rest), some counsellor_data =>
           .ok ⟨true, "Succesfully retrieved counsellors data",
                counsellor_data.total_counsellors,
                counsellor_data.total_counsellors,
                c :: rest⟩
       | _, _ =>
           .error ⟨HTTP_500_INTERNAL_SERVER_ERROR,
             "Internal sever error occurred while fetching counsellor data"⟩,
       [.get_counsellor_data mid, .get_counsellors mid])

/-- `ManagerService.get_flagged_audits` (lines 284-324).  An empty list
from the repository is a success with an empty payload (checked first,
line 300); a `None` is a 500; a non-empty list is a success. -/
def get_flagged_audits (repo : ManagerRepository) (manager : CurrentUser) :
    Except HTTPException FlaggedAuditsResponse × List RepoCall :=
  match manager.id_attr with
  | none =>
      (.error ⟨HTTP_500_INTERNAL_SERVER_ERROR,
        "Internal server error while getting flagged audits."⟩, [])
  | some mid =>
      (match repo.get_all_latest_flagged_audit mid with
       | some [] => .ok ⟨true, "Succesfully retrieved the flagged audits", []⟩
       | none =>
           .error ⟨HTTP_500_INTERNAL_SERVER_ERROR,
             "Internal server error occurred while fetching flagged audits."⟩
       | some flagged_audits =>
           .ok ⟨true, "Successfully retrieved the flagged audits", flagged_audits⟩,
       [.get_all_latest_flagged_audit mid])

/-- `ManagerService.create_new_auditor` (lines 385-423).  The source
first stores the freshly generated plaintext in
`auditor_data["password"]` and then immediately reassigns that same key
to `pwd_context.hash(...)` of it (lines 400-402); the repository row and
the returned `password` field (line 414) therefore both carry the hash.
`hash` is the bcrypt `CryptContext.hash` collaborator and
`generated_password` the output of the password generator. -/
def create_new_auditor (repo : ManagerRepository) (hash : String → String)
    (generated_password : String) (email name phone manager_id : String) :
    Except HTTPException NewUserCreatedSchema × List RepoCall :=
  let hashed := hash generated_password
  let auditor_data : AuditorRecord := ⟨email, name, phone, manager_id, hashed⟩
  (if repo.create_auditor auditor_data then
     .ok ⟨true, "Auditor created succesfully", hashed⟩
   else
     .error ⟨HTTP_500_INTERNAL_SERVER_ERROR,
       "Internal server error occurred while creating new auditor"⟩,
   [.create_auditor auditor_data])

/-- `ManagerService.create_new_counsellor` (lines 425-466).  An empty
`auditor_id` (falsy) raises a 500 before the repository is reached;
otherwise the row is created and a placeholder password returned. -/
def create_new_counsellor (repo : ManagerRepository)
    (counsellor_data : CounsellorRecord) :
    Except HTTPException NewUserCreatedSchema × List RepoCall :=
  if counsellor_data.auditor_id = "" then
    (.error ⟨HTTP_500_INTERNAL_SERVER_ERROR,
      "Auditor ID needed for creating counsellor"⟩, [])
  else
    (if repo.create_counsellor counsellor_data then
       .ok ⟨true, "Counsellor created succesfully", "Not needed"⟩
     else
       .error ⟨HTTP_500_INTERNAL_SERVER_ERROR,
         "Internal server error occurred while creating new counsellor"⟩,
     [.create_counsellor counsellor_data])

/-- `ManagerService.add_new_user` (lines 326-383): dispatch on the role
string, 400 for an unknown role. -/
def add_new_user (repo : ManagerRepository) (hash : String → String)
    (generated_password : String)
    (role name email phone auditor_id manager_id : String) :
    Except HTTPException NewUserCreatedSchema × List RepoCall :=
  if role = "auditor" then
    create_new_auditor repo hash generated_password email name phone manager_id
  else if role = "counsellor" then
    create_new_counsellor repo ⟨email, name, phone, manager_id, auditor_id⟩
  else
    (.error ⟨HTTP_400_BAD_REQUEST,
      "No matching role to add, the role should be auditor or counsellor"⟩, [])

/-! The character sets of Python's `string` module, as used by
`__generate_strong_password`. -/

/-- `string.ascii_lowercase`: the 26 characters from `a` to `z`. -/
def ascii_lowercase : List Char := (List.range 26).map (fun i => Char.ofNat (97 + i))

/-- `string.ascii_uppercase`: the 26 characters from `A` to `Z`. -/
def ascii_uppercase : List Char := (List.range 26).map (fun i => Char.ofNat (65 + i))

/-- `string.digits`: the 10 characters from `0` to `9`. -/
def string_digits : List Char := (List.range 10).map (fun i => Char.ofNat (48 + i))

/-- `string.punctuation`: the 32 ASCII punctuation characters, codes
33-47, 58-64, 91-96 and 123-126. -/
def string_punctuation : List Char :=
  ((List.range 15).map (fun i => Char.ofNat (33 + i))) ++
  ((List.range 7).map (fun i => Char.ofNat (58 + i))) ++
  ((List.range 6).map (fun i => Char.ofNat (91 + i))) ++
  ((List.range 4).map (fun i => Char.ofNat (123 + i)))

/-- `string.ascii_letters`. -/
def ascii_letters : List Char := ascii_lowercase ++ ascii_uppercase

/-- `all_chars = string.ascii_letters + string.digits + string.punctuation`
(line 493). -/
def all_chars : List Char := ascii_letters ++ string_digits ++ string_punctuation

/-- The `password` list built on lines 486-494: one draw from each of
the four character classes followed by the `length - 4` filler draws. -/
def password_list (low_choice up_choice digit_choice punct_choice : Char)
    (fill : List Char) : List Char :=
  [low_choice, up_choice, digit_choice, punct_choice] ++ fill

/-- `ManagerService.__generate_strong_password` (lines 468-497).  The
random draws are passed in explicitly: `low_choice`, `up_choice`,
`digit_choice` and `punct_choice` are the four `random.choice` results,
`fill` the `random.choices(all_chars, k=length-4)` result, and `shuffle`
the permutation applied by `random.shuffle`.  A length below 4 raises
`ValueError` before any character is drawn. -/
def generate_strong_password (length : Nat)
    (low_choice up_choice digit_choice punct_choice : Char)
    (fill : List Char) (shuffle : List Char → List Char) :
    Except String String :=
  if length < 4 then
    .error "Password length should be at least 4 to include all character types."
  else
    .ok (String.mk
      (shuffle (password_list low_choice up_choice digit_choice punct_choice fill)))

/-! Concrete collaborators used to evaluate the definitions on sample
inputs. -/

/-- A sample manager row. -/
def sampleManager : Manager := ⟨"m1", "Alice", "alice@corp.test", "123", "storedhash"⟩

/-- A repository where every read succeeds with small sample data.  Note
that its counsellor aggregate carries `total_calls_made = 11` while
`total_counsellors = 7`. -/
def sampleRepo : ManagerRepository :=
  ⟨fun _ => some sampleManager,
   fun _ => some 3,
   fun _ => some 5,
   fun _ => some 2,
   fun _ => some [⟨"fa1"⟩],
   fun _ => some [⟨"mon", 4⟩],
   fun _ => some ⟨2, 9⟩,
   fun _ => some [⟨"aud1", "Bob"⟩],
   fun _ => some ⟨7, 11⟩,
   fun _ => some [⟨"c1", "Carol"⟩],
   fun _ => true,
   fun _ => true⟩

/-- A repository where every read returns `None` and every write fails. -/
def failRepo : ManagerRepository :=
  ⟨fun _ => none,
   fun _ => none,
   fun _ => none,
   fun _ => none,
   fun _ => none,
   fun _ => none,
   fun _ => none,
   fun _ => none,
   fun _ => none,
   fun _ => none,
   fun _ => false,
   fun _ => false⟩

/-- Like `sampleRepo` but the flagged-audit query returns an empty list. -/
def emptyFlaggedRepo : ManagerRepository :=
  ⟨fun _ => some sampleManager,
   fun _ => some 3,
   fun _ => some 5,
   fun _ => some 2,
   fun _ => some [],
   fun _ => some [⟨"mon", 4⟩],
   fun _ => some ⟨2, 9⟩,
   fun _ => some [⟨"aud1", "Bob"⟩],
   fun _ => some ⟨7, 11⟩,
   fun _ => some [⟨"c1", "Carol"⟩],
   fun _ => true,
   fun _ => true⟩

/-- A token issuer that always returns the two fixed sample tokens. -/
def sampleJwt : JwtUtil := ⟨fun _ _ _ _ => some "tok1", fun _ => some "ref1"⟩

/-! Claims -/

/-- Claim C1 (code bug in `create_new_auditor`): evaluating
`add_new_user` with role `"auditor"` at a concrete input shows that the
`password` field of the returned `NewUserCreatedSchema` is the bcrypt
hash of the freshly generated password (here the hash collaborator
prepends a marker), not the generated plaintext: the source reassigns
`auditor_data["password"]` to its hash before building the response. -/
theorem C1_returned_password_is_hash_not_plaintext :
    (add_new_user sampleRepo (fun s => "bcrypt2b12" ++ s) "aB3zxq" "auditor"
       "Bob" "bob@corp.test" "999" "" "m1").1 =
      .ok ⟨true, "Auditor created succesfully", "bcrypt2b12aB3zxq"⟩ ∧
    "bcrypt2b12aB3zxq" ≠ "aB3zxq" := ⟨rfl, by decide⟩

/-- Claim C2 counterexample: `get_auditors_analytics` given a value that
is not a `Manager` instance (but exposes an id) does not fail with
Forbidden/Unauthorized: it invokes both repository reads and even
succeeds, refuting the claim that all three analytics operations
type-check their argument. -/
theorem C2_counterexample_auditors_analytics_no_type_check :
    (get_auditors_analytics sampleRepo (.other (some "m1"))).1 =
      .ok ⟨true, "Succesfully got the auditors data under manager", 2, 9,
           [⟨"aud1", "Bob"⟩]⟩ ∧
    (get_auditors_analytics sampleRepo (.other (some "m1"))).2 =
      [.get_auditor_and_audited_call_counts "m1", .get_auditors "m1"] ∧
    (get_auditors_analytics sampleRepo (.other (some "m1"))).2 ≠ [] := by
  refine ⟨rfl, rfl, ?_⟩
  show ([RepoCall.get_auditor_and_audited_call_counts "m1",
         RepoCall.get_auditors "m1"] : List RepoCall) ≠ []
  simp

/-- Claim C2 amended: only `get_manager_analytics` type-checks its
argument, failing with 403 Forbidden and an empty call log on every
non-Manager value; `get_auditors_analytics` and
`get_counsellor_analysis` perform no such check and, whenever the
argument exposes an id, invoke their repository reads with it. -/
theorem C2_amended_only_manager_analytics_type_checks :
    (∀ (repo : ManagerRepository) (oid : Option String),
      get_manager_analytics repo (.other oid) =
        (.error ⟨HTTP_403_FORBIDDEN, "Current user is not authorized as manager"⟩,
         [])) ∧
    (∀ (repo : ManagerRepository) (i : String),
      (get_auditors_analytics repo (.other (some i))).2 =
        [.get_auditor_and_audited_call_counts i, .get_auditors i]) ∧
    (∀ (repo : ManagerRepository) (i : String),
      (get_counsellor_analysis repo (.other (some i))).2 =
        [.get_counsellor_data i, .get_counsellors i]) :=
  ⟨fun _ _ => rfl, fun _ _ => rfl, fun _ _ => rfl⟩

/-- Claim C3: for every successful call to `get_counsellor_analysis`,
the `total_calls_made` field of the response equals its
`total_counsellors` field, and both are populated from the
`total_counsellors` key of the repository dictionary. -/
theorem C3_total_calls_made_equals_total_counsellors
    (repo : ManagerRepository) (u : CurrentUser)
    (r : CounsellorAnalysisResponse)
    (h : (get_counsellor_analysis repo u).1 = .ok r) :
    r.total_calls_made = r.total_counsellors ∧
    ∃ mid counsellor_data, u.id_attr = some mid ∧
      repo.get_counsellor_data mid = some counsellor_data ∧
      r.total_calls_made = counsellor_data.total_counsellors := by
  rcases hid : u.id_attr with _ | mid
  · simp [get_counsellor_analysis, hid] at h
  · rcases hcs : repo.get_counsellors mid with _ | l
    · simp [get_counsellor_analysis, hid, hcs] at h
    · rcases l with _ | ⟨c, rest⟩
      · simp [get_counsellor_analysis, hid, hcs] at h
      · rcases hcd : repo.get_counsellor_data mid with _ | d
        · simp [get_counsellor_analysis, hid, hcs, hcd] at h
        · simp [get_counsellor_analysis, hid, hcs, hcd] at h
          subst h
          exact ⟨rfl, mid, d, hid ▸ rfl, hcd, rfl⟩

/-- Witness for C3: the successful counsellor analysis at `sampleRepo`,
whose aggregate dictionary carries a different `total_calls_made` value
(11) than `total_counsellors` (7); the response repeats 7 in both
fields. -/
theorem C3_total_calls_made_equals_total_counsellors_witness :
    (CounsellorAnalysisResponse.mk true "Succesfully retrieved counsellors data" 7 7
       [⟨"c1", "Carol"⟩]).total_calls_made =
      (CounsellorAnalysisResponse.mk true "Succesfully retrieved counsellors data" 7 7
       [⟨"c1", "Carol"⟩]).total_counsellors ∧
    ∃ mid counsellor_data,
      (CurrentUser.manager sampleManager).id_attr = some mid ∧
      sampleRepo.get_counsellor_data mid = some counsellor_data ∧
      (CounsellorAnalysisResponse.mk true "Succesfully retrieved counsellors data" 7 7
       [⟨"c1", "Carol"⟩]).total_calls_made = counsellor_data.total_counsellors :=
  C3_total_calls_made_equals_total_counsellors sampleRepo (.manager sampleManager) _ rfl

/-- Claim C4: `get_manager_analytics` is all-or-nothing over its five
sub-fetches: when all five are non-None the response carries exactly
those five values; when any one of them is None the whole call fails
with 500 InternalError and no partial payload is returned. -/
theorem C4_manager_analytics_all_or_nothing
    (repo : ManagerRepository) (m : Manager) :
    (∀ leads audits flagged_calls latest_flagged last7,
      repo.get_all_leads m.id = some leads →
      repo.get_all_audit m.id = some audits →
      repo.get_all_flagged_call m.id = some flagged_calls →
      repo.get_all_latest_flagged_audit m.id = some latest_flagged →
      repo.get_last_7_days_audited_calls m.id = some last7 →
      (get_manager_analytics repo (.manager m)).1 =
        .ok ⟨true, "Succesfully analyzed audits for manager", leads, audits,
             flagged_calls, latest_flagged, last7⟩) ∧
    ((repo.get_all_leads m.id = none ∨ repo.get_all_audit m.id = none ∨
      repo.get_all_flagged_call m.id = none ∨
      repo.get_all_latest_flagged_audit m.id = none ∨
      repo.get_last_7_days_audited_calls m.id = none) →
      (get_manager_analytics repo (.manager m)).1 =
        .error ⟨HTTP_500_INTERNAL_SERVER_ERROR,
          "Internal server error while fetching data from database"⟩) := by
  constructor
  · intro leads audits flagged_calls latest_flagged last7 h1 h2 h3 h4 h5
    simp [get_manager_analytics, h1, h2, h3, h4, h5]
  · intro h
    cases h1 : repo.get_all_leads m.id <;>
    cases h2 : repo.get_all_audit m.id <;>
    cases h3 : repo.get_all_flagged_call m.id <;>
    cases h4 : repo.get_all_latest_flagged_audit m.id <;>
    cases h5 : repo.get_last_7_days_audited_calls m.id <;>
    simp_all [get_manager_analytics]

/-- Witness for C4: both branches at concrete repositories. -/
theorem C4_manager_analytics_all_or_nothing_witness :
    (get_manager_analytics sampleRepo (.manager sampleManager)).1 =
      .ok ⟨true, "Succesfully analyzed audits for manager", 3, 5, 2, [⟨"fa1"⟩],
           [⟨"mon", 4⟩]⟩ ∧
    (get_manager_analytics failRepo (.manager sampleManager)).1 =
      .error ⟨HTTP_500_INTERNAL_SERVER_ERROR,
        "Internal server error while fetching data from database"⟩ :=
  ⟨(C4_manager_analytics_all_or_nothing sampleRepo sampleManager).1
      3 5 2 [⟨"fa1"⟩] [⟨"mon", 4⟩] rfl rfl rfl rfl rfl,
   (C4_manager_analytics_all_or_nothing failRepo sampleManager).2 (Or.inl rfl)⟩

/-- Claim C5: `get_flagged_audits` distinguishes empty from failed: an
empty list from the repository is a success with `flagged_audits = []`,
a `None` is a 500 InternalError. -/
theorem C5_flagged_audits_empty_vs_none
    (repo : ManagerRepository) (m : Manager) :
    (repo.get_all_latest_flagged_audit m.id = some [] →
      (get_flagged_audits repo (.manager m)).1 =
        .ok ⟨true, "Succesfully retrieved the flagged audits", []⟩) ∧
    (repo.get_all_latest_flagged_audit m.id = none →
      (get_flagged_audits repo (.manager m)).1 =
        .error ⟨HTTP_500_INTERNAL_SERVER_ERROR,
          "Internal server error occurred while fetching flagged audits."⟩) := by
  constructor <;> intro h <;> simp [get_flagged_audits, CurrentUser.id_attr, h]

/-- Witness for C5: both outcomes at concrete repositories. -/
theorem C5_flagged_audits_empty_vs_none_witness :
    (get_flagged_audits emptyFlaggedRepo (.manager sampleManager)).1 =
      .ok ⟨true, "Succesfully retrieved the flagged audits", []⟩ ∧
    (get_flagged_audits failRepo (.manager sampleManager)).1 =
      .error ⟨HTTP_500_INTERNAL_SERVER_ERROR,
        "Internal server error occurred while fetching flagged audits."⟩ :=
  ⟨(C5_flagged_audits_empty_vs_none emptyFlaggedRepo sampleManager).1 rfl,
   (C5_flagged_audits_empty_vs_none failRepo sampleManager).2 rfl⟩

/-- Claim C6: for every target length of at least 4, with the four class
draws taken from their character classes, the filler of length
`length - 4`, and the shuffle a permutation, the generator succeeds with
a string of exactly the target length containing at least one lowercase
letter, one uppercase letter, one digit and one punctuation character;
for every target length below 4 it fails with the ValueError message. -/
theorem C6_strong_password_length_and_classes
    (length : Nat) (low_choice up_choice digit_choice punct_choice : Char)
    (fill : List Char) (shuffle : List Char → List Char) :
    (4 ≤ length →
      low_choice ∈ ascii_lowercase →
      up_choice ∈ ascii_uppercase →
      digit_choice ∈ string_digits →
      punct_choice ∈ string_punctuation →
      fill.length = length - 4 →
      (shuffle (password_list low_choice up_choice digit_choice punct_choice fill)).Perm
        (password_list low_choice up_choice digit_choice punct_choice fill) →
      generate_strong_password length low_choice up_choice digit_choice punct_choice
          fill shuffle =
        .ok (String.mk
          (shuffle (password_list low_choice up_choice digit_choice punct_choice fill))) ∧
      (String.mk
        (shuffle (password_list low_choice up_choice digit_choice punct_choice fill))).length
          = length ∧
      (∃ c ∈ (String.mk
        (shuffle (password_list low_choice up_choice digit_choice punct_choice fill))).data,
        c ∈ ascii_lowercase) ∧
      (∃ c ∈ (String.mk
        (shuffle (password_list low_choice up_choice digit_choice punct_choice fill))).data,
        c ∈ ascii_uppercase) ∧
      (∃ c ∈ (String.mk
        (shuffle (password_list low_choice up_choice digit_choice punct_choice fill))).data,
        c ∈ string_digits) ∧
      (∃ c ∈ (String.mk
        (shuffle (password_list low_choice up_choice digit_choice punct_choice fill))).data,
        c ∈ string_punctuation)) ∧
    (length < 4 →
      generate_strong_password length low_choice up_choice digit_choice punct_choice
          fill shuffle =
        .error "Password length should be at least 4 to include all character types.") := by
  constructor
  · intro h4 hl hu hd hp hfill hperm
    refine ⟨?_, ?_, ?_, ?_, ?_, ?_⟩
    · unfold generate_strong_password
      rw [if_neg (Nat.not_lt.mpr h4)]
    · show (shuffle (password_list low_choice up_choice digit_choice punct_choice fill)).length
        = length
      rw [hperm.length_eq]
      simp [password_list, hfill]
      omega
    · exact ⟨low_choice, hperm.mem_iff.mpr (by simp [password_list]), hl⟩
    · exact ⟨up_choice, hperm.mem_iff.mpr (by simp [password_list]), hu⟩
    · exact ⟨digit_choice, hperm.mem_iff.mpr (by simp [password_list]), hd⟩
    · exact ⟨punct_choice, hperm.mem_iff.mpr (by simp [password_list]), hp⟩
  · intro h
    simp [generate_strong_password, h]

/-- Witness for C6: length 4 with one concrete draw from each class and
the identity shuffle. -/
theorem C6_strong_password_length_and_classes_witness :
    generate_strong_password 4 'a' 'A' '0' '!' [] id =
      .ok (String.mk (id (password_list 'a' 'A' '0' '!' []))) ∧
    (String.mk (id (password_list 'a' 'A' '0' '!' []))).length = 4 ∧
    (∃ c ∈ (String.mk (id (password_list 'a' 'A' '0' '!' []))).data,
      c ∈ ascii_lowercase) ∧
    (∃ c ∈ (String.mk (id (password_list 'a' 'A' '0' '!' []))).data,
      c ∈ ascii_uppercase) ∧
    (∃ c ∈ (String.mk (id (password_list 'a' 'A' '0' '!' []))).data,
      c ∈ string_digits) ∧
    (∃ c ∈ (String.mk (id (password_list 'a' 'A' '0' '!' []))).data,
      c ∈ string_punctuation) :=
  (C6_strong_password_length_and_classes 4 'a' 'A' '0' '!' [] id).1
    (by decide) (by decide) (by decide) (by decide) (by decide) rfl
    (List.Perm.refl _)

/-- Claim C7: `login_manager` fails with 404 NotFound when no manager
with the given email exists, and with 401 Unauthorized when the manager
exists but the password does not verify against the stored hash; the
outcome of a lookup miss does not depend on the verifier at all (the
email lookup is decided before the password check), and the 404 outcome
excludes the 401 outcome, so no single call fails with both. -/
theorem C7_login_notfound_vs_unauthorized
    (repo : ManagerRepository) (jwt_util : JwtUtil)
    (verify : String → String → Bool) (email password : String) :
    (repo.get_manager email = none →
      (login_manager repo jwt_util verify email password).1 =
        .error ⟨HTTP_404_NOT_FOUND, "No manager found with given email"⟩) ∧
    (∀ m, repo.get_manager email = some m →
      verify password m.password = false →
      (login_manager repo jwt_util verify email password).1 =
        .error ⟨HTTP_401_UNAUTHORIZED, "Password not matched"⟩) ∧
    (∀ verify2 : String → String → Bool, repo.get_manager email = none →
      login_manager repo jwt_util verify email password =
        login_manager repo jwt_util verify2 email password) ∧
    ((login_manager repo jwt_util verify email password).1 =
        .error ⟨HTTP_404_NOT_FOUND, "No manager found with given email"⟩ →
      (login_manager repo jwt_util verify email password).1 ≠
        .error ⟨HTTP_401_UNAUTHORIZED, "Password not matched"⟩) := by
  refine ⟨fun h => by simp [login_manager, h],
          fun m hm hv => by simp [login_manager, hm, hv],
          fun verify2 h => by simp [login_manager, h],
          fun h hcontra => ?_⟩
  rw [h] at hcontra
  simp [HTTP_404_NOT_FOUND, HTTP_401_UNAUTHORIZED] at hcontra

/-- Witness for C7: all four parts at concrete inputs. -/
theorem C7_login_notfound_vs_unauthorized_witness :
    (login_manager failRepo sampleJwt (fun _ _ => true) "alice@corp.test" "pw").1 =
      .error ⟨HTTP_404_NOT_FOUND, "No manager found with given email"⟩ ∧
    (login_manager sampleRepo sampleJwt (fun _ _ => false) "alice@corp.test" "pw").1 =
      .error ⟨HTTP_401_UNAUTHORIZED, "Password not matched"⟩ ∧
    login_manager failRepo sampleJwt (fun _ _ => true) "alice@corp.test" "pw" =
      login_manager failRepo sampleJwt (fun _ _ => false) "alice@corp.test" "pw" ∧
    (login_manager failRepo sampleJwt (fun _ _ => true) "alice@corp.test" "pw").1 ≠
      .error ⟨HTTP_401_UNAUTHORIZED, "Password not matched"⟩ :=
  ⟨(C7_login_notfound_vs_unauthorized failRepo sampleJwt (fun _ _ => true)
      "alice@corp.test" "pw").1 rfl,
   (C7_login_notfound_vs_unauthorized sampleRepo sampleJwt (fun _ _ => false)
      "alice@corp.test" "pw").2.1 sampleManager rfl rfl,
   (C7_login_notfound_vs_unauthorized failRepo sampleJwt (fun _ _ => true)
      "alice@corp.test" "pw").2.2.1 (fun _ _ => false) rfl,
   (C7_login_notfound_vs_unauthorized failRepo sampleJwt (fun _ _ => true)
      "alice@corp.test" "pw").2.2.2 rfl⟩

/-- Claim C8: on the fully successful login path (email found, password
verified, both tokens issued non-empty) the service sets exactly two
http-only, samesite-lax cookies with the distinct keys "token" and
"refresh_token", the non-empty token values, and max-ages of one day
(86400 seconds) and seven days (604800 seconds), and returns a user view
built only from id, name, email and the literal role "manager" — the
stored password hash appears in no field of the response. -/
theorem C8_login_success_cookies_and_user_view
    (repo : ManagerRepository) (jwt_util : JwtUtil)
    (verify : String → String → Bool) (email password : String)
    (m : Manager) (token refresh_token : String)
    (hm : repo.get_manager email = some m)
    (hv : verify password m.password = true)
    (ht : jwt_util.create_jwt_token m.id m.name m.email "manager" = some token)
    (ht0 : token ≠ "")
    (hr : jwt_util.create_refresh_token m.id = some refresh_token)
    (hr0 : refresh_token ≠ "") :
    login_manager repo jwt_util verify email password =
      (.ok ⟨true, "Manager logged in succesfully.",
          ⟨m.id, m.name, m.email, "manager"⟩⟩,
       [⟨"token", token, true, false, "lax", 24 * 60 * 60⟩,
        ⟨"refresh_token", refresh_token, true, true, "lax", 7 * 24 * 60 * 60⟩]) ∧
    "token" ≠ "refresh_token" ∧ token ≠ "" ∧ refresh_token ≠ "" := by
  refine ⟨?_, by decide, ht0, hr0⟩
  simp [login_manager, hm, hv, ht, ht0, hr, hr0]

/-- Witness for C8: a successful login at `sampleRepo` with `sampleJwt`
and a verifier accepting the password. -/
theorem C8_login_success_cookies_and_user_view_witness :
    login_manager sampleRepo sampleJwt (fun _ _ => true) "alice@corp.test" "pw" =
      (.ok ⟨true, "Manager logged in succesfully.",
          ⟨"m1", "Alice", "alice@corp.test", "manager"⟩⟩,
       [⟨"token", "tok1", true, false, "lax", 24 * 60 * 60⟩,
        ⟨"refresh_token", "ref1", true, true, "lax", 7 * 24 * 60 * 60⟩]) ∧
    "token" ≠ "refresh_token" ∧ "tok1" ≠ "" ∧ "ref1" ≠ "" :=
  C8_login_success_cookies_and_user_view sampleRepo sampleJwt (fun _ _ => true)
    "alice@corp.test" "pw" sampleManager "tok1" "ref1"
    rfl rfl rfl (by decide) rfl (by decide)

/-- Claim C10: whenever `login_manager` fails — manager not found,
password mismatch, or either token issuance falsy — no cookie at all is
set on the response: the two `set_cookie` calls occur only on the fully
successful path after both tokens have been issued. -/
theorem C10_no_cookie_on_failed_login
    (repo : ManagerRepository) (jwt_util : JwtUtil)
    (verify : String → String → Bool) (email password : String)
    (e : HTTPException)
    (h : (login_manager repo jwt_util verify email password).1 = .error e) :
    (login_manager repo jwt_util verify email password).2 = [] := by
  simp only [login_manager] at h ⊢
  cases hm : repo.get_manager email with
  | none => simp [hm]
  | some m =>
    simp only [hm] at h ⊢
    by_cases hv : verify password m.password = false
    · simp [hv]
    · rw [if_neg hv] at h ⊢
      cases ht : jwt_util.create_jwt_token m.id m.name m.email "manager" with
      | none => simp [ht]
      | some token =>
        simp only [ht] at h ⊢
        by_cases ht0 : token = ""
        · simp [ht0]
        · rw [if_neg ht0] at h ⊢
          cases hr : jwt_util.create_refresh_token m.id with
          | none => simp [hr]
          | some refresh_token =>
            simp only [hr] at h ⊢
            by_cases hr0 : refresh_token = ""
            · simp [hr0]
            · rw [if_neg hr0] at h ⊢
              simp at h

/-- Witness for C10: a failing login (lookup miss) sets no cookie. -/
theorem C10_no_cookie_on_failed_login_witness :
    (login_manager failRepo sampleJwt (fun _ _ => true) "alice@corp.test" "pw").2 = [] :=
  C10_no_cookie_on_failed_login failRepo sampleJwt (fun _ _ => true)
    "alice@corp.test" "pw" ⟨HTTP_404_NOT_FOUND, "No manager found with given email"⟩ rfl

/-- Claim C9: `add_new_user` with role `"counsellor"` and an empty
`auditor_id` fails with 500 semantics and performs no repository call
(the call log is empty), so no counsellor row creation is attempted. -/
theorem C9_empty_auditor_id_fails_before_repo
    (repo : ManagerRepository) (hash : String → String)
    (generated_password name email phone manager_id : String) :
    add_new_user repo hash generated_password "counsellor"
        name email phone "" manager_id =
      (.error ⟨HTTP_500_INTERNAL_SERVER_ERROR,
        "Auditor ID needed for creating counsellor"⟩, []) := by
  simp [add_new_user, create_new_counsellor]

end CallAudit
